import Mathlib

/-!
Verification of the Livelox ASG auditor (src/livelox.py) against its
natural-language specification.

The program inspects a snapshot of an auto-scaling group (ASG) and runs two
check procedures:

* `verify_testcase_a` (ConsistencyVerifier): a capacity check, an
  availability-zone-spread check, a configuration-homogeneity check, and an
  uptime ranking that reports the longest-running instance.
* `verify_testcase_b` (ScheduleAnalyzer + ActivityCounter): reports the
  scheduled action with minimal start time together with elapsed = start − now,
  and counts successful launch/terminate scaling activities.

The shallow embedding below follows the Python source line by line.
Timestamps are integers; `datetime.now() - launch_time` becomes integer
subtraction, and `timedelta()` (the zero duration) becomes `0`.  Python
dictionary-key/index accesses that can raise (`instances[0]`,
`instance['SecurityGroups'][0]`, and subscripting the `None` accumulator on
the pass branch) are modelled with `Option`: a `none` result of
`verify_testcase_a` means the Python function raises instead of returning
normally.
-/

namespace Livelox

/-- One ASG instance record, with the fields the program reads.
`securityGroups` is the list of security-group identifiers
(`instance['SecurityGroups'][*]['GroupId']`); the program only ever reads
index 0 of it. -/
structure Instance where
  instanceId : String
  lifecycleState : String
  availabilityZone : String
  securityGroups : List String
  imageId : String
  vpcId : String
  launchTime : Int
deriving DecidableEq

/-- A scheduled scaling action, with the one field the program reads. -/
structure ScheduledAction where
  startTime : Int
deriving DecidableEq

/-- A scaling activity record, with the fields the program reads. -/
structure Activity where
  statusCode : String
  description : String
deriving DecidableEq

/-- The three failure messages `verify_testcase_a` can print. -/
inductive TAFailure where
  | capacityMismatch
  | insufficientAZSpread
  | configurationDrift
deriving DecidableEq

/-- Outcome of a normal (non-raising) run of `verify_testcase_a`:
either one of the three failure prints, or the pass print together with the
reported longest-running instance id and its uptime. -/
inductive TAResult where
  | failed (f : TAFailure)
  | passed (instanceId : String) (uptime : Int)
deriving DecidableEq

/-- The exact text printed for each failure of Testcase A. -/
def failureMessage : TAFailure → String
  | TAFailure.capacityMismatch =>
      "Testcase A - Failed: ASG desired running count does not match the running instances count."
  | TAFailure.insufficientAZSpread =>
      "Testcase A - Failed: Instances are not distributed across multiple availability zones."
  | TAFailure.configurationDrift =>
      "Testcase A - Failed: SecurityGroup, ImageID, or VPCID differs among instances."

/-- Python's `s.startswith(p)`: the first `|p|` characters of `s` are `p`. -/
def startswith (s p : String) : Bool :=
  s.data.take p.data.length == p.data

/-- The homogeneity loop of `verify_testcase_a` (lines 48-51): walk the
instances and stop at the first one whose first security group, image id or
VPC id differs from the reference values taken from `instances[0]`.
`some true` = a divergence was found (the loop returns with the drift
failure), `some false` = the loop finished without divergence, `none` = the
loop raised (`instance['SecurityGroups'][0]` on an empty list). -/
def driftScan (security_group image_id vpc_id : String) : List Instance → Option Bool
  | [] => some false
  | i :: rest =>
    match i.securityGroups.head? with
    | none => none
    | some g =>
      if g ≠ security_group ∨ i.imageId ≠ image_id ∨ i.vpcId ≠ vpc_id then some true
      else driftScan security_group image_id vpc_id rest

/-- One step of the longest-uptime fold (lines 57-62): the accumulator is
`(longest_uptime, longest_running_instance)`, updated only when the current
instance's uptime is strictly greater. -/
def uptimeStep (now : Int) (acc : Int × Option Instance) (i : Instance) :
    Int × Option Instance :=
  if now - i.launchTime > acc.1 then (now - i.launchTime, some i) else acc

/-- `verify_testcase_a` (lines 21-66), as a function of the instance snapshot
and the current time.  `asg_desired_count` is `len(instances)` exactly as in
the source; `asg_running_count` counts the InService instances; the
availability-zone set is the deduplicated list of zones; the homogeneity loop
is `driftScan`; the uptime fold starts from `(timedelta(), None) = (0, none)`
and the pass branch reads `longest_running_instance['InstanceId']`, which
raises (`none`) when the accumulator is still `None`. -/
def verify_testcase_a (instances : List Instance) (now : Int) : Option TAResult :=
  let asg_desired_count := instances.length
  let asg_running_count := instances.countP (fun i => i.lifecycleState == "InService")
  if asg_desired_count ≠ asg_running_count then
    some (TAResult.failed TAFailure.capacityMismatch)
  else if ((instances.map (fun i => i.availabilityZone)).dedup).length < 2 then
    some (TAResult.failed TAFailure.insufficientAZSpread)
  else
    match instances.head? with
    | none => none
    | some first =>
      match first.securityGroups.head? with
      | none => none
      | some security_group =>
        match driftScan security_group first.imageId first.vpcId instances with
        | none => none
        | some true => some (TAResult.failed TAFailure.configurationDrift)
        | some false =>
          match instances.foldl (uptimeStep now) (0, none) with
          | (_, none) => none
          | (longest_uptime, some longest_running_instance) =>
            some (TAResult.passed longest_running_instance.instanceId longest_uptime)

/-- Python's `min(scheduled_actions, key=lambda x: x['StartTime'])` on the
non-empty list `a :: rest`: keep the first element attaining the minimal
start time (`min` replaces the current best only on a strictly smaller key). -/
def minByStart (a : ScheduledAction) (rest : List ScheduledAction) : ScheduledAction :=
  rest.foldl (fun best x => if x.startTime < best.startTime then x else best) a

/-- The schedule part of `verify_testcase_b` (lines 81-90): `none` models the
"No scheduled actions found" branch; otherwise the reported pair is the
selected action's start time and `elapsed_time = start_time - current_time`. -/
def scheduleReport (scheduled_actions : List ScheduledAction) (now : Int) :
    Option (Int × Int) :=
  match scheduled_actions with
  | [] => none
  | a :: rest =>
    let next_action := minByStart a rest
    some (next_action.startTime, next_action.startTime - now)

/-- Line 99: count of activities with status Successful whose description
begins with the canonical launch text. -/
def launchedCount (activities : List Activity) : Nat :=
  activities.countP (fun activity =>
    activity.statusCode == "Successful" &&
      startswith activity.description "Launching a new EC2 instance")

/-- Line 101: count of activities with status Successful whose description
begins with the canonical terminate text. -/
def terminatedCount (activities : List Activity) : Nat :=
  activities.countP (fun activity =>
    activity.statusCode == "Successful" &&
      startswith activity.description "Terminating EC2 instance")

/-- The three values reported by `verify_testcase_b`. -/
structure TBResult where
  schedule : Option (Int × Int)
  launched : Nat
  terminated : Nat
deriving DecidableEq

/-- `verify_testcase_b` (lines 69-104), as a function of the already-fetched
scheduled actions, the current time, and the day's scaling activities. -/
def verify_testcase_b (scheduled_actions : List ScheduledAction) (now : Int)
    (activities : List Activity) : TBResult :=
  { schedule := scheduleReport scheduled_actions now
    launched := launchedCount activities
    terminated := terminatedCount activities }

/-- `main` (lines 107-110): run Testcase A, then Testcase B.  An exception
raised inside `verify_testcase_a` propagates, so Testcase B runs only when
Testcase A returned normally. -/
def main (instances : List Instance) (now : Int)
    (scheduled_actions : List ScheduledAction) (activities : List Activity) :
    Option (TAResult × TBResult) :=
  match verify_testcase_a instances now with
  | none => none
  | some ra => some (ra, verify_testcase_b scheduled_actions now activities)

/-- Following the spec's words (§4.1 check 1, §6 `FetchInstances`): the
capacity check the spec asks for compares the InService count with the
desired-capacity value obtained from the ASG descriptor, an input the code
never fetches.  This definition exists only to be compared with the check
`verify_testcase_a` actually performs. -/
def capacityCheckSpec (desiredCapacity : Nat) (instances : List Instance) : Bool :=
  instances.countP (fun i => i.lifecycleState == "InService") == desiredCapacity

/-! ## Helper lemmas about the embedded operations -/

/-- On a snapshot whose every instance has at least one security group, the
homogeneity loop never raises. -/
theorem driftScan_ne_none (security_group image_id vpc_id : String) :
    ∀ (l : List Instance), (∀ i ∈ l, i.securityGroups ≠ []) →
      driftScan security_group image_id vpc_id l ≠ none
  | [], _ => by simp [driftScan]
  | i :: rest, hsg => by
    obtain ⟨g, gs, hg⟩ := List.exists_cons_of_ne_nil (hsg i (List.mem_cons_self i rest))
    unfold driftScan
    rw [hg]
    simp only [List.head?_cons]
    by_cases hc : g ≠ security_group ∨ i.imageId ≠ image_id ∨ i.vpcId ≠ vpc_id
    · rw [if_pos hc]; simp
    · rw [if_neg hc]
      exact driftScan_ne_none security_group image_id vpc_id rest
        (fun j hj => hsg j (List.mem_cons_of_mem i hj))

/-- The homogeneity loop finishes without finding a divergence exactly when
every instance's first security group, image id and VPC id equal the
reference values. -/
theorem driftScan_false_iff (security_group image_id vpc_id : String) :
    ∀ (l : List Instance), (∀ i ∈ l, i.securityGroups ≠ []) →
      (driftScan security_group image_id vpc_id l = some false ↔
        ∀ i ∈ l, i.securityGroups.head? = some security_group ∧
          i.imageId = image_id ∧ i.vpcId = vpc_id)
  | [], _ => by simp [driftScan]
  | i :: rest, hsg => by
    obtain ⟨g, gs, hg⟩ := List.exists_cons_of_ne_nil (hsg i (List.mem_cons_self i rest))
    unfold driftScan
    rw [hg]
    simp only [List.head?_cons]
    by_cases hc : g ≠ security_group ∨ i.imageId ≠ image_id ∨ i.vpcId ≠ vpc_id
    · rw [if_pos hc]
      constructor
      · intro hfalse; exact absurd hfalse (by simp)
      · intro hall
        obtain ⟨h1, h2, h3⟩ := hall i (List.mem_cons_self i rest)
        rw [hg] at h1
        simp only [List.head?_cons, Option.some.injEq] at h1
        rcases hc with hc | hc | hc
        · exact absurd h1 hc
        · exact absurd h2 hc
        · exact absurd h3 hc
    · rw [if_neg hc]
      push_neg at hc
      obtain ⟨hc1, hc2, hc3⟩ := hc
      rw [driftScan_false_iff security_group image_id vpc_id rest
        (fun j hj => hsg j (List.mem_cons_of_mem i hj))]
      constructor
      · intro hall j hj
        rcases List.mem_cons.mp hj with rfl | hj
        · exact ⟨by rw [hg]; simp [List.head?_cons, hc1], hc2, hc3⟩
        · exact hall j hj
      · intro hall j hj
        exact hall j (List.mem_cons_of_mem i hj)

/-- Characterisation of the longest-uptime fold started from an arbitrary
accumulator `(b, o)`: either no instance has uptime strictly above `b` and
the accumulator is returned unchanged, or the list splits around the first
instance attaining the maximal uptime, every earlier instance has strictly
smaller uptime, and every instance's uptime is at most the maximum. -/
theorem foldl_uptime_char (now : Int) :
    ∀ (l : List Instance) (b : Int) (o : Option Instance),
      (l.foldl (uptimeStep now) (b, o) = (b, o) ∧ ∀ j ∈ l, now - j.launchTime ≤ b) ∨
      (∃ pre inst post, l = pre ++ inst :: post ∧
        l.foldl (uptimeStep now) (b, o) = (now - inst.launchTime, some inst) ∧
        b < now - inst.launchTime ∧
        (∀ j ∈ pre, now - j.launchTime < now - inst.launchTime) ∧
        (∀ j ∈ l, now - j.launchTime ≤ now - inst.launchTime))
  | [], b, o => Or.inl ⟨rfl, by simp⟩
  | i :: rest, b, o => by
    rw [List.foldl_cons]
    by_cases h : now - i.launchTime > b
    · have hstep : uptimeStep now (b, o) i = (now - i.launchTime, some i) := by
        unfold uptimeStep; exact if_pos h
      rw [hstep]
      rcases foldl_uptime_char now rest (now - i.launchTime) (some i) with
        ⟨hf, hall⟩ | ⟨pre, inst, post, heq, hf, hlt, hpre, hall⟩
      · refine Or.inr ⟨[], i, rest, rfl, hf, h, by simp, ?_⟩
        intro j hj
        rcases List.mem_cons.mp hj with rfl | hj
        · exact le_refl _
        · exact hall j hj
      · refine Or.inr ⟨i :: pre, inst, post, by rw [heq, List.cons_append], hf,
          lt_trans h hlt, ?_, ?_⟩
        · intro j hj
          rcases List.mem_cons.mp hj with rfl | hj
          · exact hlt
          · exact hpre j hj
        · intro j hj
          rcases List.mem_cons.mp hj with rfl | hj
          · exact le_of_lt hlt
          · exact hall j (heq ▸ hj)
    · have hstep : uptimeStep now (b, o) i = (b, o) := by
        unfold uptimeStep; exact if_neg h
      rw [hstep]
      push_neg at h
      rcases foldl_uptime_char now rest b o with
        ⟨hf, hall⟩ | ⟨pre, inst, post, heq, hf, hlt, hpre, hall⟩
      · refine Or.inl ⟨hf, ?_⟩
        intro j hj
        rcases List.mem_cons.mp hj with rfl | hj
        · exact h
        · exact hall j hj
      · refine Or.inr ⟨i :: pre, inst, post, by rw [heq, List.cons_append], hf, hlt, ?_, ?_⟩
        · intro j hj
          rcases List.mem_cons.mp hj with rfl | hj
          · exact lt_of_le_of_lt h hlt
          · exact hpre j hj
        · intro j hj
          rcases List.mem_cons.mp hj with rfl | hj
          · exact le_of_lt (lt_of_le_of_lt h hlt)
          · exact hall j (heq ▸ hj)

/-- A normal pass of `verify_testcase_a` reports exactly the instance kept in
the fold accumulator, with the accumulated uptime. -/
theorem passed_result_foldl (instances : List Instance) (now : Int) (id : String) (u : Int)
    (h : verify_testcase_a instances now = some (TAResult.passed id u)) :
    ∃ inst : Instance,
      instances.foldl (uptimeStep now) (0, none) = (u, some inst) ∧
        inst.instanceId = id := by
  simp only [verify_testcase_a] at h
  split at h
  · exact absurd h (by simp)
  split at h
  · exact absurd h (by simp)
  split at h
  · exact absurd h (by simp)
  split at h
  · exact absurd h (by simp)
  split at h
  · exact absurd h (by simp)
  · exact absurd h (by simp)
  split at h
  · exact absurd h (by simp)
  rename_i lu inst heq
  simp only [Option.some.injEq, TAResult.passed.injEq] at h
  exact ⟨inst, by rw [heq, h.2], h.1⟩

/-- Reduction of `verify_testcase_a` to its homogeneity stage once the
capacity and AZ-spread checks have passed on a non-empty snapshot. -/
theorem verify_reaches_drift (first : Instance) (rest : List Instance) (now : Int)
    (security_group : String)
    (hcap : (first :: rest).length =
      (first :: rest).countP (fun i => i.lifecycleState == "InService"))
    (haz : 2 ≤ (((first :: rest).map (fun i => i.availabilityZone)).dedup).length)
    (hsg : first.securityGroups.head? = some security_group) :
    verify_testcase_a (first :: rest) now =
      match driftScan security_group first.imageId first.vpcId (first :: rest) with
      | none => none
      | some true => some (TAResult.failed TAFailure.configurationDrift)
      | some false =>
        match (first :: rest).foldl (uptimeStep now) (0, none) with
        | (_, none) => none
        | (longest_uptime, some longest_running_instance) =>
          some (TAResult.passed longest_running_instance.instanceId longest_uptime) := by
  unfold verify_testcase_a
  rw [if_neg (fun hne => hne hcap), if_neg (Nat.not_lt.mpr haz)]
  simp only [List.head?_cons, hsg]

/-- `min(scheduled_actions, key=...)` returns a member of the list with
minimal start time. -/
theorem minByStart_spec :
    ∀ (l : List ScheduledAction) (a : ScheduledAction),
      minByStart a l ∈ a :: l ∧
        ∀ x ∈ a :: l, (minByStart a l).startTime ≤ x.startTime
  | [], a => by simp [minByStart]
  | b :: rest, a => by
    have hstep : minByStart a (b :: rest) =
        minByStart (if b.startTime < a.startTime then b else a) rest := by
      unfold minByStart; rw [List.foldl_cons]
    by_cases hb : b.startTime < a.startTime
    · rw [if_pos hb] at hstep
      obtain ⟨hmem, hle⟩ := minByStart_spec rest b
      constructor
      · rw [hstep]
        rcases List.mem_cons.mp hmem with he | hr
        · rw [he]; exact List.mem_cons_of_mem a (List.mem_cons_self b rest)
        · exact List.mem_cons_of_mem a (List.mem_cons_of_mem b hr)
      · intro x hx
        rw [hstep]
        have hself := hle b (List.mem_cons_self b rest)
        rcases List.mem_cons.mp hx with rfl | hx
        · exact le_trans hself (le_of_lt hb)
        · exact hle x hx
    · rw [if_neg hb] at hstep
      obtain ⟨hmem, hle⟩ := minByStart_spec rest a
      constructor
      · rw [hstep]
        rcases List.mem_cons.mp hmem with he | hr
        · rw [he]; exact List.mem_cons_self a (b :: rest)
        · exact List.mem_cons_of_mem a (List.mem_cons_of_mem b hr)
      · intro x hx
        rw [hstep]
        have hself := hle a (List.mem_cons_self a rest)
        rcases List.mem_cons.mp hx with rfl | hx
        · exact hself
        · rcases List.mem_cons.mp hx with rfl | hx
          · exact le_trans hself (Int.not_lt.mp hb)
          · exact hle x (List.mem_cons_of_mem a hx)

/-! ## Concrete fixtures used by counterexamples and witnesses -/

/-- A single healthy InService instance. -/
def soloInstance : Instance :=
  { instanceId := "i-solo", lifecycleState := "InService", availabilityZone := "us-east-1a",
    securityGroups := ["sg-1"], imageId := "ami-1", vpcId := "vpc-1", launchTime := 0 }

/-- Healthy fleet member in zone a, launched at 40. -/
def goodA : Instance :=
  { instanceId := "i-1", lifecycleState := "InService", availabilityZone := "us-east-1a",
    securityGroups := ["sg-1"], imageId := "ami-1", vpcId := "vpc-1", launchTime := 40 }

/-- Healthy fleet member in zone b, launched at 70, same configuration as `goodA`. -/
def goodB : Instance :=
  { instanceId := "i-2", lifecycleState := "InService", availabilityZone := "us-east-1b",
    securityGroups := ["sg-1"], imageId := "ami-1", vpcId := "vpc-1", launchTime := 70 }

/-- Instance whose image id diverges from `goodA`. -/
def driftX1 : Instance :=
  { instanceId := "i-drift-1", lifecycleState := "InService", availabilityZone := "us-east-1b",
    securityGroups := ["sg-1"], imageId := "ami-2", vpcId := "vpc-1", launchTime := 70 }

/-- Same divergence as `driftX1` but under a different instance id. -/
def driftX2 : Instance :=
  { instanceId := "i-drift-2", lifecycleState := "InService", availabilityZone := "us-east-1b",
    securityGroups := ["sg-1"], imageId := "ami-2", vpcId := "vpc-1", launchTime := 70 }

/-- Healthy instance launched exactly at the current time 100 (uptime 0). -/
def lateA : Instance :=
  { instanceId := "i-late-1", lifecycleState := "InService", availabilityZone := "us-east-1a",
    securityGroups := ["sg-1"], imageId := "ami-1", vpcId := "vpc-1", launchTime := 100 }

/-- Healthy instance launched after the current time 100 (negative uptime). -/
def lateB : Instance :=
  { instanceId := "i-late-2", lifecycleState := "InService", availabilityZone := "us-east-1b",
    securityGroups := ["sg-1"], imageId := "ami-1", vpcId := "vpc-1", launchTime := 150 }

/-- A successful launch activity. -/
def actLaunch : Activity :=
  { statusCode := "Successful", description := "Launching a new EC2 instance i-1" }

/-- A successful terminate activity. -/
def actTerm : Activity :=
  { statusCode := "Successful", description := "Terminating EC2 instance i-2" }

/-- A scheduled action starting at time 20. -/
def sched20 : ScheduledAction := { startTime := 20 }

/-! ## The claims -/

/-- Claim C1 (code bug).  The spec requires the capacity check to compare the
InService count with the desired-capacity obtained from the ASG descriptor,
never inferred from the snapshot length; the code sets
`asg_desired_count = len(instances)`.  On a snapshot holding a single
InService instance while the descriptor's desired capacity is 2, the
spec-mandated check fails, yet the code's capacity check passes and the run
proceeds to (and fails at) the AZ-spread check instead of failing with
CapacityMismatch. -/
theorem C1_capacity_check_uses_snapshot_length :
    capacityCheckSpec 2 [soloInstance] = false ∧
    verify_testcase_a [soloInstance] 100 ≠
      some (TAResult.failed TAFailure.capacityMismatch) ∧
    verify_testcase_a [soloInstance] 100 =
      some (TAResult.failed TAFailure.insufficientAZSpread) := by decide

/-- Claim C2 (code bug).  The claim (and the function's own docstring, line
25 of the source: the AZ requirement applies "If more than 1 instance
running") says a snapshot with at most one instance passes the AZ-spread
check; the code runs the check unconditionally, so a single-instance
snapshot fails with InsufficientAZSpread. -/
theorem C2_single_instance_fails_az_spread :
    ([soloInstance] : List Instance).length = 1 ∧
    verify_testcase_a [soloInstance] 100 =
      some (TAResult.failed TAFailure.insufficientAZSpread) := by decide

/-- Counterexample for claim C5.  On the empty snapshot the code does not
compare the InService count 0 with the descriptor's desired capacity (here
3, so the spec-side capacity check fails), and no "no instance" uptime
result is produced: the capacity check trivially passes (0 = len [] = 0) and
the run fails the AZ-spread check. -/
theorem C5_counterexample :
    capacityCheckSpec 3 [] = false ∧
    verify_testcase_a [] 0 ≠ some (TAResult.failed TAFailure.capacityMismatch) ∧
    verify_testcase_a [] 0 =
      some (TAResult.failed TAFailure.insufficientAZSpread) := by decide

/-- Claim C5 (amended).  On an empty snapshot the verifier terminates
normally with a well-defined result and never dereferences a missing first
instance — but via the AZ-spread check: the capacity check compares the
InService count 0 with the snapshot length 0 (always passing, whatever the
descriptor's desired capacity), the AZ-spread check then fails with
InsufficientAZSpread, and the uptime ranking is never evaluated. -/
theorem C5_empty_snapshot_terminates (now : Int) :
    verify_testcase_a [] now =
      some (TAResult.failed TAFailure.insufficientAZSpread) := rfl

/-- Claim C8.  The activity counter returns (0, 0) on an empty activity
sequence, and both counts are invariant under permutation of the input. -/
theorem C8_activity_counter_algebraic (now : Int)
    (scheduled_actions : List ScheduledAction) (la lb : List Activity)
    (h : la.Perm lb) :
    (verify_testcase_b scheduled_actions now []).launched = 0 ∧
    (verify_testcase_b scheduled_actions now []).terminated = 0 ∧
    (verify_testcase_b scheduled_actions now la).launched =
      (verify_testcase_b scheduled_actions now lb).launched ∧
    (verify_testcase_b scheduled_actions now la).terminated =
      (verify_testcase_b scheduled_actions now lb).terminated := by
  refine ⟨rfl, rfl, ?_, ?_⟩
  · show launchedCount la = launchedCount lb
    unfold launchedCount
    exact h.countP_eq _
  · show terminatedCount la = terminatedCount lb
    unfold terminatedCount
    exact h.countP_eq _

/-- Witness for claim C8 at concrete inputs: empty list and the swap of a
two-activity list. -/
theorem C8_activity_counter_algebraic_witness :
    (verify_testcase_b [] 0 []).launched = 0 ∧
    (verify_testcase_b [] 0 []).terminated = 0 ∧
    (verify_testcase_b [] 0 [actLaunch, actTerm]).launched =
      (verify_testcase_b [] 0 [actTerm, actLaunch]).launched ∧
    (verify_testcase_b [] 0 [actLaunch, actTerm]).terminated =
      (verify_testcase_b [] 0 [actTerm, actLaunch]).terminated :=
  C8_activity_counter_algebraic 0 [] [actLaunch, actTerm] [actTerm, actLaunch]
    (List.Perm.swap actTerm actLaunch [])

/-- Claim C9.  Whenever Testcase A returns normally — with a pass or with
any of the three check failures — `main` still evaluates and reports the
schedule analysis and the activity counts, unchanged. -/
theorem C9_analyzer_independence (instances : List Instance) (now : Int)
    (scheduled_actions : List ScheduledAction) (activities : List Activity)
    (r : TAResult) (h : verify_testcase_a instances now = some r) :
    main instances now scheduled_actions activities =
      some (r, verify_testcase_b scheduled_actions now activities) := by
  unfold main
  rw [h]

/-- Witness for claim C9: a run whose ConsistencyVerifier fails (on the
AZ-spread check) still reports the Testcase B results. -/
theorem C9_analyzer_independence_witness :
    main [] 0 [sched20] [actLaunch] =
      some (TAResult.failed TAFailure.insufficientAZSpread,
        verify_testcase_b [sched20] 0 [actLaunch]) :=
  C9_analyzer_independence [] 0 [sched20] [actLaunch]
    (TAResult.failed TAFailure.insufficientAZSpread) (by decide)

/-- Claim C10.  The longest-running accumulator starts at `(0, None)` and is
updated only on strictly greater uptime, so on any snapshot that passes all
three checks but whose every instance has uptime at most zero the pass
branch subscripts `None`: the run raises instead of returning a result. -/
theorem C10_zero_uptime_pass_branch_raises (instances : List Instance) (now : Int)
    (hchecks : ∀ f : TAFailure, verify_testcase_a instances now ≠ some (TAResult.failed f))
    (hup : ∀ j ∈ instances, now - j.launchTime ≤ 0) :
    verify_testcase_a instances now = none := by
  cases hv : verify_testcase_a instances now with
  | none => rfl
  | some r =>
    cases r with
    | failed f => exact absurd hv (hchecks f)
    | passed id u =>
      obtain ⟨inst, hfold, _⟩ := passed_result_foldl instances now id u hv
      rcases foldl_uptime_char now instances 0 none with
        ⟨hf, _⟩ | ⟨pre, inst2, post, heq, _, hlt, _, _⟩
      · rw [hfold] at hf
        exact absurd (congrArg Prod.snd hf) (by simp)
      · have hmem : inst2 ∈ instances := by
          rw [heq]
          exact List.mem_append_right pre (List.mem_cons_self inst2 post)
        exact absurd hlt (not_lt.mpr (by simpa using hup inst2 hmem))

/-- Witness for claim C10: a two-instance fleet that passes every check but
whose launch times are at or after the current time 100, so the run raises. -/
theorem C10_zero_uptime_pass_branch_raises_witness :
    verify_testcase_a [lateA, lateB] 100 = none := by
  have hnone : verify_testcase_a [lateA, lateB] 100 = none := by decide
  exact C10_zero_uptime_pass_branch_raises [lateA, lateB] 100
    (fun f hf => by rw [hnone] at hf; exact Option.noConfusion hf) (by decide)

/-- Counterexample for claim C3.  The drift failure does not name the
diverging instance: two snapshots that differ only in the diverging
instance's identifier produce the very same failure value, and the printed
message is a fixed string containing no identifier. -/
theorem C3_counterexample :
    verify_testcase_a [goodA, driftX1] 100 = verify_testcase_a [goodA, driftX2] 100 ∧
    verify_testcase_a [goodA, driftX1] 100 =
      some (TAResult.failed TAFailure.configurationDrift) ∧
    driftX1.instanceId ≠ driftX2.instanceId ∧
    failureMessage TAFailure.configurationDrift =
      "Testcase A - Failed: SecurityGroup, ImageID, or VPCID differs among instances." := by
  decide

/-- Claim C3 (amended).  For every non-empty snapshot reaching the
homogeneity check (the capacity and AZ-spread checks pass; every instance
carries at least one security group), the verifier fails with
ConfigurationDrift exactly when some instance's first security-group id,
image id or VPC id differs from the first instance's — but the failure does
not name the diverging instance. -/
theorem C3_homogeneity_check (first : Instance) (rest : List Instance) (now : Int)
    (hcap : (first :: rest).length =
      (first :: rest).countP (fun i => i.lifecycleState == "InService"))
    (haz : 2 ≤ (((first :: rest).map (fun i => i.availabilityZone)).dedup).length)
    (hsg : ∀ i ∈ first :: rest, i.securityGroups ≠ []) :
    verify_testcase_a (first :: rest) now =
        some (TAResult.failed TAFailure.configurationDrift) ↔
      ¬ ∀ i ∈ first :: rest, i.securityGroups.head? = first.securityGroups.head? ∧
          i.imageId = first.imageId ∧ i.vpcId = first.vpcId := by
  obtain ⟨g, gs, hg⟩ :=
    List.exists_cons_of_ne_nil (hsg first (List.mem_cons_self first rest))
  have hghead : first.securityGroups.head? = some g := by rw [hg]; rfl
  rw [verify_reaches_drift first rest now g hcap haz hghead, hghead]
  have hiff := driftScan_false_iff g first.imageId first.vpcId (first :: rest) hsg
  cases hd : driftScan g first.imageId first.vpcId (first :: rest) with
  | none =>
    exact absurd hd (driftScan_ne_none g first.imageId first.vpcId (first :: rest) hsg)
  | some b =>
    rw [hd] at hiff
    cases b with
    | true =>
      have hnall : ¬ ∀ i ∈ first :: rest, i.securityGroups.head? = some g ∧
          i.imageId = first.imageId ∧ i.vpcId = first.vpcId :=
        fun hall => absurd (hiff.mpr hall) (by simp)
      exact iff_of_true rfl hnall
    | false =>
      have hall := hiff.mp rfl
      have hlhs : (match (first :: rest).foldl (uptimeStep now) (0, none) with
          | (_, none) => (none : Option TAResult)
          | (longest_uptime, some longest_running_instance) =>
            some (TAResult.passed longest_running_instance.instanceId longest_uptime)) ≠
          some (TAResult.failed TAFailure.configurationDrift) := by
        cases hacc : (first :: rest).foldl (uptimeStep now) (0, none) with
        | mk lu o => cases o <;> simp
      exact iff_of_false hlhs (not_not_intro hall)

/-- Witness for claim C3 (amended) at a concrete drifting snapshot. -/
theorem C3_homogeneity_check_witness :
    verify_testcase_a [goodA, driftX1] 50 =
      some (TAResult.failed TAFailure.configurationDrift) := by
  rw [C3_homogeneity_check goodA [driftX1] 50 (by decide) (by decide) (by decide)]
  decide

/-- Claim C4.  Whenever the verifier passes and reports an instance, the
snapshot splits as `pre ++ inst :: post` where `inst` is the reported
instance: its identifier and uptime `now - launch` are the reported values,
its uptime is maximal over the snapshot, and every instance listed before it
has strictly smaller uptime (ties resolve to the earliest-listed instance). -/
theorem C4_uptime_ranking (instances : List Instance) (now : Int) (id : String) (u : Int)
    (h : verify_testcase_a instances now = some (TAResult.passed id u)) :
    ∃ pre inst post, instances = pre ++ inst :: post ∧
      inst.instanceId = id ∧ u = now - inst.launchTime ∧
      (∀ j ∈ instances, now - j.launchTime ≤ u) ∧
      (∀ j ∈ pre, now - j.launchTime < u) := by
  obtain ⟨inst0, hfold, hid⟩ := passed_result_foldl instances now id u h
  rcases foldl_uptime_char now instances 0 none with
    ⟨hf, _⟩ | ⟨pre, inst, post, heq, hf, _, hpre, hall⟩
  · rw [hfold] at hf
    exact absurd (congrArg Prod.snd hf) (by simp)
  · rw [hfold] at hf
    injection hf with h1 h2
    injection h2 with h3
    refine ⟨pre, inst, post, heq, by rw [← h3]; exact hid, h1, ?_, ?_⟩
    · intro j hj
      rw [h1]
      exact hall j hj
    · intro j hj
      rw [h1]
      exact hpre j hj

/-- Witness for claim C4: on the healthy two-instance fleet the verifier
reports instance i-1 with uptime 60, which is maximal. -/
theorem C4_uptime_ranking_witness :
    ∃ pre inst post, ([goodA, goodB] : List Instance) = pre ++ inst :: post ∧
      inst.instanceId = "i-1" ∧ (60 : Int) = 100 - inst.launchTime ∧
      (∀ j ∈ [goodA, goodB], 100 - j.launchTime ≤ (60 : Int)) ∧
      (∀ j ∈ pre, 100 - j.launchTime < (60 : Int)) :=
  C4_uptime_ranking [goodA, goodB] 100 "i-1" 60 (by decide)

/-- Claim C6.  The schedule analyzer reports nothing on an empty action
list; on a non-empty list it reports a member action whose start time is
minimal — even when that start time is in the past — together with
elapsed = start − now; on a one-element list the elapsed value is exactly
that action's start minus now. -/
theorem C6_schedule_analyzer (now : Int) (activities : List Activity) :
    (verify_testcase_b [] now activities).schedule = none ∧
    (∀ (a : ScheduledAction) (rest : List ScheduledAction),
      ∃ m ∈ a :: rest,
        (verify_testcase_b (a :: rest) now activities).schedule =
          some (m.startTime, m.startTime - now) ∧
        ∀ x ∈ a :: rest, m.startTime ≤ x.startTime) ∧
    (∀ a : ScheduledAction,
      (verify_testcase_b [a] now activities).schedule =
        some (a.startTime, a.startTime - now)) := by
  refine ⟨rfl, ?_, ?_⟩
  · intro a rest
    obtain ⟨hmem, hle⟩ := minByStart_spec rest a
    exact ⟨minByStart a rest, hmem, rfl, hle⟩
  · intro a
    rfl

/-- Claim C7.  The launched (resp. terminated) count is the number of
activities with status Successful whose description begins with the launch
(resp. terminate) text; no description can begin with both texts, so no
activity is counted twice; activities matching neither predicate are
ignored; and the spec's three-activity scenario yields (1, 1). -/
theorem C7_activity_counter (scheduled_actions : List ScheduledAction) (now : Int)
    (activities : List Activity) :
    (verify_testcase_b scheduled_actions now activities).launched =
      (activities.filter (fun a => a.statusCode == "Successful" &&
        startswith a.description "Launching a new EC2 instance")).length ∧
    (verify_testcase_b scheduled_actions now activities).terminated =
      (activities.filter (fun a => a.statusCode == "Successful" &&
        startswith a.description "Terminating EC2 instance")).length ∧
    (∀ a : Activity, ¬ (startswith a.description "Launching a new EC2 instance" = true ∧
        startswith a.description "Terminating EC2 instance" = true)) ∧
    (verify_testcase_b scheduled_actions now
        [{ statusCode := "Successful", description := "Launching a new EC2 instance i-1" },
         { statusCode := "Successful", description := "Terminating EC2 instance i-2" },
         { statusCode := "Failed", description := "Launching a new EC2 instance i-3" }]).launched
      = 1 ∧
    (verify_testcase_b scheduled_actions now
        [{ statusCode := "Successful", description := "Launching a new EC2 instance i-1" },
         { statusCode := "Successful", description := "Terminating EC2 instance i-2" },
         { statusCode := "Failed", description := "Launching a new EC2 instance i-3" }]).terminated
      = 1 := by
  refine ⟨List.countP_eq_length_filter _ _, List.countP_eq_length_filter _ _, ?_, rfl, rfl⟩
  rintro a ⟨h1, h2⟩
  unfold startswith at h1 h2
  have e1 := eq_of_beq h1
  have e2 := eq_of_beq h2
  rw [show ("Launching a new EC2 instance".data.length) = 28 from by decide] at e1
  rw [show ("Terminating EC2 instance".data.length) = 24 from by decide] at e2
  have h3 : (a.description.data.take 28).take 24 = a.description.data.take 24 := by
    rw [List.take_take]
    norm_num
  rw [e1, e2] at h3
  exact absurd h3 (by decide)

end Livelox
